import Mathlib

/-!
Verification of the OAuth2 authorization-code flow engine (the
`AbstractProvider` service: `redirect` and `getTokens`) and of the REST
controller factory (`RestControllerFactory.attachService`) of this
repository, as a shallow embedding in Lean 4.

The OAuth2 engine is embedded from the design specification and checked
against the behaviours exercised by `abstract-provider.service.spec.ts`;
the REST controller factory is embedded directly from
`rest.controller-factory.ts`.
-/

namespace Foal

/-- Parameter maps (cookies, query parameters, endpoint parameters) are
association lists from string keys to string values; lookup returns the
first binding of a key, matching `URLSearchParams.get` and JS property
access for objects built in insertion order. -/
abbrev Params := List (String × String)

/-- Name of the cookie carrying the CSRF state token (`oauth2-state`). -/
def STATE_COOKIE_NAME : String := "oauth2-state"

/-- Modelled from the spec: the Request Context external collaborator,
exposing `cookies[name] -> string | undefined` and
`query[name] -> string | undefined` for one inbound HTTP request. -/
structure Context where
  cookies : Params
  query : Params

/-- Modelled from the spec: the per-provider configuration, resolved once
at construction (§3 Data Model).  `scopeSeparator` defaults to a single
space and `defaultScopes` to the empty sequence. -/
structure ProviderConfig where
  clientId : String
  clientSecret : String
  redirectUri : String
  authEndpoint : String
  tokenEndpoint : String
  defaultScopes : List String := []
  scopeSeparator : String := " "
  baseAuthEndpointParams : Params := []
  baseTokenEndpointParams : Params := []

/-- Modelled from the spec: per-call `RedirectOptions` — `scopes`
overrides the defaults entirely when provided, `params` is merged over
`baseAuthEndpointParams` with caller values winning on key collision. -/
structure RedirectOptions where
  scopes : Option (List String) := none
  params : Params := []

/-- Shallow merge of two parameter maps, caller keys overriding base keys
on collision (the JS object-spread `\x7b ...base, ...caller \x7d`). -/
def mergeParams (base caller : Params) : Params :=
  base.filter (fun p => (caller.lookup p.1).isNone) ++ caller

/-- Hexadecimal digit as an upper-case character, as produced by
`encodeURIComponent`. -/
def hexDigit (n : Nat) : Char :=
  if n < 10 then Char.ofNat (48 + n) else Char.ofNat (55 + n)

/-- Characters left unescaped by `encodeURIComponent`: ASCII
alphanumerics and `- _ . ! ~ * ( )` and the apostrophe (code 39). -/
def isUnreservedChar (c : Char) : Bool :=
  (c.isAlpha && c.toNat < 128) || c.isDigit || c == Char.ofNat 45 ||
    c == Char.ofNat 95 || c == Char.ofNat 46 || c == Char.ofNat 33 ||
    c == Char.ofNat 126 || c == Char.ofNat 42 || c == Char.ofNat 39 ||
    c == Char.ofNat 40 || c == Char.ofNat 41

/-- Percent-encode one character (`%XX` with upper-case hex for reserved
ASCII characters, the character itself otherwise). -/
def percentEncodeChar (c : Char) : String :=
  if isUnreservedChar c then String.singleton c
  else "%" ++ String.singleton (hexDigit (c.toNat / 16)) ++
    String.singleton (hexDigit (c.toNat % 16))

/-- Percent-encoding of a string, character by character
(`encodeURIComponent` restricted to ASCII input). -/
def percentEncode (s : String) : String :=
  String.join (s.toList.map percentEncodeChar)

/-- Render a parameter map as a query string: `k1=v1&k2=v2&...` with
keys and values percent-encoded (the serialization of
`URLSearchParams`). -/
def queryString : Params → String
  | [] => ""
  | [p] => percentEncode p.1 ++ "=" ++ percentEncode p.2
  | p :: q :: ps =>
      percentEncode p.1 ++ "=" ++ percentEncode p.2 ++ "&" ++ queryString (q :: ps)

/-- Modelled from the spec: a redirect response value, carrying the
target URL (`path`) and the cookies attached to the response. -/
structure HttpResponseRedirect where
  path : String
  cookies : Params

/-- Map a binary digit to a URL-safe character. -/
def bitChar (d : Nat) : Char := if d = 0 then Char.ofNat 65 else Char.ofNat 66

/-- Modelled from the spec: the State Token Generator, which produces
cryptographically random opaque strings (≥128 bits of entropy encoded as
URL-safe text).  Randomness is not expressible in a shallow embedding,
so the fresh random draw is an explicit `entropy` argument and the
generator encodes it as URL-safe text; the generator's specified
properties are that every token is non-empty and that distinct draws
yield distinct tokens (collisions being cryptographically negligible). -/
def getRandomState (entropy : Nat) : String :=
  String.mk (Char.ofNat 84 :: (Nat.digits 2 entropy).map bitChar)

/-- Modelled from the spec (§4.1, steps 2–4): the ordered parameter map
embedded in the authorization URL — `response_type=code`, `client_id`,
`redirect_uri`, `state`, the joined `scope` when the effective scope
list is non-empty, then the merged extra parameters. -/
def redirectParams (cfg : ProviderConfig) (opts : RedirectOptions)
    (st : String) : Params :=
  let scopes := opts.scopes.getD cfg.defaultScopes
  let scopeParams : Params :=
    if scopes.isEmpty then []
    else [("scope", String.intercalate cfg.scopeSeparator scopes)]
  [("response_type", "code"), ("client_id", cfg.clientId),
    ("redirect_uri", cfg.redirectUri), ("state", st)]
    ++ scopeParams ++ mergeParams cfg.baseAuthEndpointParams opts.params

/-- Modelled from the spec (§4.1): `redirect` builds the authorization
URL from `authEndpoint` and the query string of `redirectParams`, and
attaches the freshly generated CSRF state token as the `oauth2-state`
cookie of the redirect response.  The generated token is the explicit
`st` argument (see `getRandomState`). -/
def redirect (cfg : ProviderConfig) (opts : RedirectOptions)
    (st : String) : HttpResponseRedirect :=
  { path := cfg.authEndpoint ++ "?" ++ queryString (redirectParams cfg opts st),
    cookies := [(STATE_COOKIE_NAME, st)] }

/-- Modelled from the spec: the error taxonomy of the engine —
`configurationError` (fatal, at construction), `invalidStateError` (CSRF
mismatch), `authorizationError` (provider declined, carrying
`error` / `errorDescription` / `errorUri`), `tokenError` (token endpoint
rejected the exchange, carrying the parsed response body verbatim), and
the generic invalid-request condition for a missing `code` (§4.2 step 3,
not a distinct error kind of the taxonomy). -/
inductive ProviderFailure where
  | configurationError (missingKey : String)
  | invalidStateError
  | authorizationError (error : String)
      (errorDescription errorUri : Option String)
  | tokenError (body : Params)
  | invalidRequest
  deriving Repr, DecidableEq

/-- Modelled from the spec: tokens are the parsed response body of the
token endpoint, preserving every field it contains; we model parsed JSON
objects of string fields as association lists. -/
abbrev SocialTokens := Params

/-- Modelled from the spec: one outbound HTTP request to the token
endpoint — target URL and request parameters. -/
structure TokenRequest where
  url : String
  params : Params
  deriving Repr, DecidableEq

/-- Modelled from the spec: the structured response of the HTTP Client —
status code and parsed body. -/
structure HttpResponse where
  statusCode : Nat
  body : Params

/-- Modelled from the spec (§4.2 step 4): the parameters of the token
exchange request — `grant_type=authorization_code`, the submitted code,
`redirect_uri`, `client_id`, `client_secret`, merged with
`baseTokenEndpointParams`. -/
def tokenEndpointParams (cfg : ProviderConfig) (code : String) : Params :=
  [("grant_type", "authorization_code"), ("code", code),
    ("redirect_uri", cfg.redirectUri), ("client_id", cfg.clientId),
    ("client_secret", cfg.clientSecret)] ++ cfg.baseTokenEndpointParams

/-- Modelled from the spec (§4.2): `getTokens` validates the CSRF state
(cookie and query `state` both present and exactly equal) before
anything else, then checks the `error` query parameter, then exchanges
the `code` at the token endpoint, classifying 4xx/5xx responses as
`tokenError` and returning the parsed body verbatim on success.  The
HTTP Client is the `client` argument; the second component of the result
lists the outbound requests performed (empty on the local-validation
failure paths). -/
def getTokens (cfg : ProviderConfig) (ctx : Context)
    (client : TokenRequest → HttpResponse) :
    Except ProviderFailure SocialTokens × List TokenRequest :=
  match ctx.cookies.lookup STATE_COOKIE_NAME, ctx.query.lookup "state" with
  | some c, some q =>
    if c = q then
      match ctx.query.lookup "error" with
      | some e =>
          (Except.error (ProviderFailure.authorizationError e
            (ctx.query.lookup "error_description")
            (ctx.query.lookup "error_uri")), [])
      | none =>
        match ctx.query.lookup "code" with
        | none => (Except.error ProviderFailure.invalidRequest, [])
        | some code =>
          let req : TokenRequest :=
            ⟨cfg.tokenEndpoint, tokenEndpointParams cfg code⟩
          let resp := client req
          if 400 ≤ resp.statusCode then
            (Except.error (ProviderFailure.tokenError resp.body), [req])
          else
            (Except.ok resp.body, [req])
    else (Except.error ProviderFailure.invalidStateError, [])
  | _, _ => (Except.error ProviderFailure.invalidStateError, [])

/-- Modelled from the spec: the configuration-key paths of the three
required settings, fixed by the concrete provider (`configPaths`). -/
structure ConfigPaths where
  clientId : String
  clientSecret : String
  redirectUri : String

/-- Modelled from the spec (§3, §6): construction resolves `clientId`,
`clientSecret` and `redirectUri` through the Configuration Reader
(`get : string -> string | undefined`); an undefined required value is a
fatal `configurationError` at construction time, before any request is
served.  The remaining fields are fixed by the concrete provider. -/
def createProvider (get : String → Option String) (paths : ConfigPaths)
    (authEndpoint tokenEndpoint : String) (defaultScopes : List String)
    (scopeSeparator : String) (baseAuth baseToken : Params) :
    Except ProviderFailure ProviderConfig :=
  match get paths.clientId with
  | none => Except.error (ProviderFailure.configurationError paths.clientId)
  | some cid =>
    match get paths.clientSecret with
    | none => Except.error (ProviderFailure.configurationError paths.clientSecret)
    | some cs =>
      match get paths.redirectUri with
      | none => Except.error (ProviderFailure.configurationError paths.redirectUri)
      | some ru =>
          Except.ok
            { clientId := cid, clientSecret := cs, redirectUri := ru,
              authEndpoint := authEndpoint, tokenEndpoint := tokenEndpoint,
              defaultScopes := defaultScopes, scopeSeparator := scopeSeparator,
              baseAuthEndpointParams := baseAuth,
              baseTokenEndpointParams := baseToken }

/-- Values handled by the REST controller services (request bodies,
query objects, service results) are modelled as JSON-like objects of
string fields. -/
abbrev Val := List (String × String)

/-- Errors thrown by service operations: `ObjectDoesNotExist` (checked
by `isObjectDoesNotExist` in the factory) or any other error, which the
factory rethrows. -/
inductive ServiceError where
  | objectDoesNotExist
  | other (msg : String)
  deriving Repr, DecidableEq

/-- The request-time data a REST route handler reads from the context:
`ctx.params.id`, `ctx.body` and `ctx.state.query`. -/
structure RestCtx where
  paramsId : String
  body : Val
  stateQuery : Option Val

/-- A service of type `Class<Partial<IModelService>>`: each operation
may be unimplemented (`none`), mirroring the `if (!service.op)` checks
of `rest.controller-factory.ts`. -/
structure ModelService where
  createOne : Option (Val → Except ServiceError Val)
  findMany : Option (Val → Except ServiceError Val)
  findOne : Option (String → Except ServiceError Val)
  removeOne : Option (String → Except ServiceError Val)
  updateOne : Option (Val → String → Except ServiceError Val)

/-- The HTTP responses produced by the REST factory's handlers. -/
inductive RestResponse where
  | ok (body : Val)
  | created (body : Val)
  | methodNotAllowed
  | notImplemented
  | notFound
  deriving Repr, DecidableEq

/-- A route handler: given the resolved service and the request context,
produce a response or rethrow a service error. -/
abbrev RestHandler := ModelService → RestCtx → Except ServiceError RestResponse

/-- The `try \x2f catch` pattern of `rest.controller-factory.ts`: run a
service operation, turn `ObjectDoesNotExist` into
`HttpResponseNotFound`, rethrow any other error, and wrap a successful
result with `onOk`. -/
def catchNotFound (r : Except ServiceError Val)
    (onOk : Val → RestResponse) : Except ServiceError RestResponse :=
  match r with
  | Except.ok v => Except.ok (onOk v)
  | Except.error ServiceError.objectDoesNotExist => Except.ok RestResponse.notFound
  | Except.error e => Except.error e

/-- A controller: base path and the registered routes
(route name, HTTP method, sub-path, handler). -/
structure Controller where
  path : String
  routes : List (String × String × String × RestHandler)

/-- `RestControllerFactory.attachService`, embedded route by route from
`rest.controller-factory.ts`.  `services.get(ServiceClass)` resolves the
service at request time; the embedding passes the resolved service to
each handler. -/
def attachService (path : String) : Controller :=
  { path := path,
    routes :=
      [ ("DELETE /", "DELETE", "/", fun _ _ =>
          Except.ok RestResponse.methodNotAllowed),
        ("DELETE /:id", "DELETE", "/:id", fun svc ctx =>
          match svc.removeOne with
          | none => Except.ok RestResponse.notImplemented
          | some f => catchNotFound (f ctx.paramsId) RestResponse.ok),
        ("GET /", "GET", "/", fun svc ctx =>
          match svc.findMany with
          | none => Except.ok RestResponse.notImplemented
          | some f => (f (ctx.stateQuery.getD [])).map RestResponse.ok),
        ("GET /:id", "GET", "/:id", fun svc ctx =>
          match svc.findOne with
          | none => Except.ok RestResponse.notImplemented
          | some f => catchNotFound (f ctx.paramsId) RestResponse.ok),
        ("PATCH /", "PATCH", "/", fun _ _ =>
          Except.ok RestResponse.methodNotAllowed),
        ("PATCH /:id", "PATCH", "/:id", fun svc ctx =>
          match svc.updateOne with
          | none => Except.ok RestResponse.notImplemented
          | some f => catchNotFound (f ctx.body ctx.paramsId) RestResponse.ok),
        ("POST /", "POST", "/", fun svc ctx =>
          match svc.createOne with
          | none => Except.ok RestResponse.notImplemented
          | some f => (f ctx.body).map RestResponse.created),
        ("POST /:id", "POST", "/:id", fun _ _ =>
          Except.ok RestResponse.methodNotAllowed),
        ("PUT /", "PUT", "/", fun _ _ =>
          Except.ok RestResponse.methodNotAllowed),
        ("PUT /:id", "PUT", "/:id", fun svc ctx =>
          match svc.updateOne with
          | none => Except.ok RestResponse.notImplemented
          | some f => catchNotFound (f ctx.body ctx.paramsId) RestResponse.ok) ] }

/-- The handler a controller registered under a route name. -/
def Controller.getHandler (c : Controller) (name : String) : Option RestHandler :=
  (c.routes.find? (fun r => r.1 == name)).map (fun r => r.2.2.2)

/-- Run the handler registered under a route name on a service and a
request context (`none` when no such route exists). -/
def Controller.handle (c : Controller) (name : String) (svc : ModelService)
    (ctx : RestCtx) : Option (Except ServiceError RestResponse) :=
  (c.getHandler name).map (fun h => h svc ctx)

/-!  Helper lemmas about parameter-map lookup.  -/

theorem lookup_filter_of_lookup_isSome (base caller : Params) (k : String)
    (h : (caller.lookup k).isSome) :
    (base.filter (fun p => (caller.lookup p.1).isNone)).lookup k = none := by
  induction base with
  | nil => rfl
  | cons p base ih =>
    obtain ⟨k1, v1⟩ := p
    simp only [List.filter_cons]
    by_cases hp1 : (caller.lookup k1).isNone = true
    · have hk : k1 ≠ k := by
        intro hk
        rw [hk, Option.isNone_iff_eq_none] at hp1
        rw [hp1] at h
        simp at h
      rw [if_pos hp1, List.lookup_cons]
      have hb : (k == k1) = false := by simp [Ne.symm hk]
      rw [hb]
      exact ih
    · rw [if_neg hp1]
      exact ih

theorem lookup_filter_of_lookup_none (base caller : Params) (k : String)
    (h : caller.lookup k = none) :
    (base.filter (fun p => (caller.lookup p.1).isNone)).lookup k = base.lookup k := by
  induction base with
  | nil => rfl
  | cons p base ih =>
    obtain ⟨k1, v1⟩ := p
    simp only [List.filter_cons]
    by_cases hk : k1 = k
    · have hp1 : (caller.lookup k1).isNone = true := by
        rw [hk, h]; rfl
      rw [if_pos hp1, List.lookup_cons, List.lookup_cons]
      rcases hbeq : k == k1
      · exact ih
      · rfl
    · have hb : (k == k1) = false := by simp [Ne.symm hk]
      by_cases hp1 : (caller.lookup k1).isNone = true
      · rw [if_pos hp1, List.lookup_cons, hb, List.lookup_cons, hb]
        exact ih
      · rw [if_neg hp1, List.lookup_cons, hb]
        exact ih

/-- Lookup in a shallow merge: the caller's binding when it has one,
otherwise the base's binding. -/
theorem lookup_mergeParams (base caller : Params) (k : String) :
    (mergeParams base caller).lookup k = (caller.lookup k).or (base.lookup k) := by
  unfold mergeParams
  rw [List.lookup_append]
  rcases h : caller.lookup k with _ | v
  · rw [lookup_filter_of_lookup_none base caller k h]
    rcases base.lookup k <;> rfl
  · rw [lookup_filter_of_lookup_isSome base caller k (by rw [h]; rfl)]
    rfl

/-!  C1 and C3: the local-validation failure paths of `getTokens`.  -/

/-- C1: whenever the `oauth2-state` cookie and the `state` query
parameter are not both present and exactly equal, `getTokens` fails with
`InvalidStateError` and performs no outbound HTTP request; since the
context is arbitrary — in particular its query may contain an `error`
key — the state check precedes the inspection of the `error`
parameter. -/
theorem getTokens_invalid_state (cfg : ProviderConfig) (ctx : Context)
    (client : TokenRequest → HttpResponse)
    (h : ¬ ∃ s, ctx.cookies.lookup STATE_COOKIE_NAME = some s ∧
      ctx.query.lookup "state" = some s) :
    getTokens cfg ctx client =
      (Except.error ProviderFailure.invalidStateError, []) := by
  unfold getTokens
  rcases hc : ctx.cookies.lookup STATE_COOKIE_NAME with _ | c <;>
    rcases hq : ctx.query.lookup "state" with _ | q
  · rfl
  · rfl
  · rfl
  · have hne : c ≠ q := by
      intro hcq
      exact h ⟨c, hc, by rw [hq, hcq]⟩
    simp [hne]

/-- C1 witness: a context whose cookie state is `"xxx"`, whose query
state is the mismatched `"yyy"`, and whose query carries an `error` key,
is rejected with `InvalidStateError` and zero outbound requests. -/
theorem getTokens_invalid_state_witness :
    getTokens
      { clientId := "cid", clientSecret := "cs", redirectUri := "ru",
        authEndpoint := "ae", tokenEndpoint := "te" }
      { cookies := [("oauth2-state", "xxx")],
        query := [("error", "access_denied"), ("state", "yyy")] }
      (fun _ => ⟨200, []⟩) =
      (Except.error ProviderFailure.invalidStateError, []) := by
  apply getTokens_invalid_state
  rintro ⟨s, h1, h2⟩
  have e1 : some "xxx" = some s := h1
  have e2 : some "yyy" = some s := h2
  rw [← Option.some.inj e1] at e2
  exact absurd (Option.some.inj e2) (by decide)

/-- C3: with matching state and an `error` query parameter, `getTokens`
fails with `AuthorizationError` carrying the `error` value, the optional
`error_description` and the optional `error_uri` (each `none` exactly
when the parameter is absent), and performs no outbound HTTP request. -/
theorem getTokens_authorization_error (cfg : ProviderConfig) (ctx : Context)
    (client : TokenRequest → HttpResponse) (s e : String)
    (hc : ctx.cookies.lookup STATE_COOKIE_NAME = some s)
    (hq : ctx.query.lookup "state" = some s)
    (he : ctx.query.lookup "error" = some e) :
    getTokens cfg ctx client =
      (Except.error (ProviderFailure.authorizationError e
        (ctx.query.lookup "error_description")
        (ctx.query.lookup "error_uri")), []) := by
  unfold getTokens
  rw [hc, hq]
  simp [he]

/-- C3 witness: the context of the test — cookie and query state both
`"xxx"`, query `error=access_denied&error_description=yyy&error_uri=zzz`
— yields `AuthorizationError` with exactly those three fields and zero
outbound requests. -/
theorem getTokens_authorization_error_witness :
    getTokens
      { clientId := "cid", clientSecret := "cs", redirectUri := "ru",
        authEndpoint := "ae", tokenEndpoint := "te" }
      { cookies := [("oauth2-state", "xxx")],
        query := [("error", "access_denied"), ("error_description", "yyy"),
          ("error_uri", "zzz"), ("state", "xxx")] }
      (fun _ => ⟨200, []⟩) =
      (Except.error (ProviderFailure.authorizationError "access_denied"
        (some "yyy") (some "zzz")), []) := by
  have h := getTokens_authorization_error
    { clientId := "cid", clientSecret := "cs", redirectUri := "ru",
      authEndpoint := "ae", tokenEndpoint := "te" }
    { cookies := [("oauth2-state", "xxx")],
      query := [("error", "access_denied"), ("error_description", "yyy"),
        ("error_uri", "zzz"), ("state", "xxx")] }
    (fun _ => ⟨200, []⟩) "xxx" "access_denied" rfl rfl rfl
  exact h

/-- C10: the handlers registered by `RestControllerFactory.attachService`
for `DELETE /`, `PATCH /`, `POST /:id` and `PUT /` answer
`HttpResponseMethodNotAllowed` on every request, whatever operations the
service implements. -/
theorem attachService_method_not_allowed (path : String) (svc : ModelService)
    (ctx : RestCtx) :
    (attachService path).handle "DELETE /" svc ctx =
        some (Except.ok RestResponse.methodNotAllowed)
    ∧ (attachService path).handle "PATCH /" svc ctx =
        some (Except.ok RestResponse.methodNotAllowed)
    ∧ (attachService path).handle "POST /:id" svc ctx =
        some (Except.ok RestResponse.methodNotAllowed)
    ∧ (attachService path).handle "PUT /" svc ctx =
        some (Except.ok RestResponse.methodNotAllowed) :=
  ⟨rfl, rfl, rfl, rfl⟩

/-- C4: with matching state, no `error` parameter and a `code`, the
single outbound request of `getTokens` targets `tokenEndpoint` and
carries `grant_type=authorization_code`, the submitted code, the
configured `redirect_uri`, `client_id` and `client_secret`, together
with every entry of `baseTokenEndpointParams`; on a success status the
parsed response body is returned as the tokens, all fields preserved. -/
theorem getTokens_success (cfg : ProviderConfig) (ctx : Context)
    (client : TokenRequest → HttpResponse) (s code : String)
    (hc : ctx.cookies.lookup STATE_COOKIE_NAME = some s)
    (hq : ctx.query.lookup "state" = some s)
    (he : ctx.query.lookup "error" = none)
    (hcode : ctx.query.lookup "code" = some code)
    (hok : (client ⟨cfg.tokenEndpoint, tokenEndpointParams cfg code⟩).statusCode < 400) :
    getTokens cfg ctx client =
      (Except.ok (client ⟨cfg.tokenEndpoint, tokenEndpointParams cfg code⟩).body,
        [⟨cfg.tokenEndpoint, tokenEndpointParams cfg code⟩])
    ∧ (tokenEndpointParams cfg code).lookup "grant_type" = some "authorization_code"
    ∧ (tokenEndpointParams cfg code).lookup "code" = some code
    ∧ (tokenEndpointParams cfg code).lookup "redirect_uri" = some cfg.redirectUri
    ∧ (tokenEndpointParams cfg code).lookup "client_id" = some cfg.clientId
    ∧ (tokenEndpointParams cfg code).lookup "client_secret" = some cfg.clientSecret
    ∧ ∀ p ∈ cfg.baseTokenEndpointParams, p ∈ tokenEndpointParams cfg code := by
  refine ⟨?_, rfl, rfl, rfl, rfl, rfl, ?_⟩
  · unfold getTokens
    rw [hc, hq]
    simp only [if_pos rfl]
    rw [he, hcode]
    simp [Nat.not_le.mpr hok]
  · intro p hp
    unfold tokenEndpointParams
    exact List.mem_append_right _ hp

/-- C4 witness: the test scenario — matching state `"xxx"`, code
`an_authorization_code`, base token parameter `foo=bar`, an endpoint
answering 200 with `\x7b accessToken, tokenType \x7d` — returns exactly
that body, through a request carrying all the required parameters. -/
theorem getTokens_success_witness :
    getTokens
      { clientId := "clientIdXXX", clientSecret := "clientSecretYYY",
        redirectUri := "https://example.com/callback",
        authEndpoint := "https://example2.com/auth",
        tokenEndpoint := "http://localhost:3000/token",
        baseTokenEndpointParams := [("foo", "bar")] }
      { cookies := [("oauth2-state", "xxx")],
        query := [("code", "an_authorization_code"), ("state", "xxx")] }
      (fun _ => ⟨200, [("accessToken", "an_access_token"), ("tokenType", "bearer")]⟩) =
      (Except.ok [("accessToken", "an_access_token"), ("tokenType", "bearer")],
        [⟨"http://localhost:3000/token",
          [("grant_type", "authorization_code"), ("code", "an_authorization_code"),
            ("redirect_uri", "https://example.com/callback"),
            ("client_id", "clientIdXXX"), ("client_secret", "clientSecretYYY"),
            ("foo", "bar")]⟩]) := by
  have h := getTokens_success
    { clientId := "clientIdXXX", clientSecret := "clientSecretYYY",
      redirectUri := "https://example.com/callback",
      authEndpoint := "https://example2.com/auth",
      tokenEndpoint := "http://localhost:3000/token",
      baseTokenEndpointParams := [("foo", "bar")] }
    { cookies := [("oauth2-state", "xxx")],
      query := [("code", "an_authorization_code"), ("state", "xxx")] }
    (fun _ => ⟨200, [("accessToken", "an_access_token"), ("tokenType", "bearer")]⟩)
    "xxx" "an_authorization_code" rfl rfl rfl rfl (by decide)
  exact h.1

/-- C5: with matching state and a code, if the token endpoint answers
with a client- or server-error status (≥ 400), `getTokens` fails with
`TokenError` carrying the parsed response body verbatim. -/
theorem getTokens_token_error (cfg : ProviderConfig) (ctx : Context)
    (client : TokenRequest → HttpResponse) (s code : String)
    (hc : ctx.cookies.lookup STATE_COOKIE_NAME = some s)
    (hq : ctx.query.lookup "state" = some s)
    (he : ctx.query.lookup "error" = none)
    (hcode : ctx.query.lookup "code" = some code)
    (hbad : 400 ≤ (client ⟨cfg.tokenEndpoint, tokenEndpointParams cfg code⟩).statusCode) :
    getTokens cfg ctx client =
      (Except.error (ProviderFailure.tokenError
          (client ⟨cfg.tokenEndpoint, tokenEndpointParams cfg code⟩).body),
        [⟨cfg.tokenEndpoint, tokenEndpointParams cfg code⟩]) := by
  unfold getTokens
  rw [hc, hq]
  simp only [if_pos rfl]
  rw [he, hcode]
  simp [hbad]

/-- C5 witness: the test scenario — matching state, a 400 status with
body `\x7b error: "bad request" \x7d` — fails with `TokenError` whose
payload is exactly that body. -/
theorem getTokens_token_error_witness :
    getTokens
      { clientId := "clientIdXXX", clientSecret := "clientSecretYYY",
        redirectUri := "https://example.com/callback",
        authEndpoint := "https://example2.com/auth",
        tokenEndpoint := "http://localhost:3000/token" }
      { cookies := [("oauth2-state", "xxx")],
        query := [("code", "an_authorization_code"), ("state", "xxx")] }
      (fun _ => ⟨400, [("error", "bad request")]⟩) =
      (Except.error (ProviderFailure.tokenError [("error", "bad request")]),
        [⟨"http://localhost:3000/token",
          [("grant_type", "authorization_code"), ("code", "an_authorization_code"),
            ("redirect_uri", "https://example.com/callback"),
            ("client_id", "clientIdXXX"), ("client_secret", "clientSecretYYY")]⟩]) := by
  exact getTokens_token_error
    { clientId := "clientIdXXX", clientSecret := "clientSecretYYY",
      redirectUri := "https://example.com/callback",
      authEndpoint := "https://example2.com/auth",
      tokenEndpoint := "http://localhost:3000/token" }
    { cookies := [("oauth2-state", "xxx")],
      query := [("code", "an_authorization_code"), ("state", "xxx")] }
    (fun _ => ⟨400, [("error", "bad request")]⟩)
    "xxx" "an_authorization_code" rfl rfl rfl rfl (by decide)

/-- `getTokens` never fails with a configuration error: configuration
resolution happens at construction only. -/
theorem getTokens_no_configuration_error (cfg : ProviderConfig) (ctx : Context)
    (client : TokenRequest → HttpResponse) (k : String) :
    (getTokens cfg ctx client).1 ≠
      Except.error (ProviderFailure.configurationError k) := by
  unfold getTokens
  rcases ctx.cookies.lookup STATE_COOKIE_NAME with _ | c <;>
    rcases ctx.query.lookup "state" with _ | q
  · simp
  · simp
  · simp
  · by_cases hcq : c = q
    · simp only [if_pos hcq]
      rcases ctx.query.lookup "error" with _ | e
      · rcases ctx.query.lookup "code" with _ | code
        · simp
        · dsimp only
          by_cases hs : 400 ≤
              (client ⟨cfg.tokenEndpoint, tokenEndpointParams cfg code⟩).statusCode
          · simp [hs]
          · simp [hs]
      · simp
    · simp [hcq]

/-- C6: construction fails with a fatal configuration error exactly when
one of the required keys `clientId`, `clientSecret`, `redirectUri`
resolves to `undefined`; when all three resolve, construction succeeds
with those values, and a constructed provider never raises a
configuration error from `getTokens` at call time (`redirect` returns a
plain redirect response by its type, so it cannot either). -/
theorem createProvider_config_check (get : String → Option String)
    (paths : ConfigPaths) (ae te : String) (ds : List String) (ss : String)
    (ba bt : Params) :
    ((get paths.clientId = none ∨ get paths.clientSecret = none ∨
        get paths.redirectUri = none) →
      ∃ k, createProvider get paths ae te ds ss ba bt =
        Except.error (ProviderFailure.configurationError k))
    ∧ (∀ cid cs ru, get paths.clientId = some cid →
        get paths.clientSecret = some cs → get paths.redirectUri = some ru →
        createProvider get paths ae te ds ss ba bt =
          Except.ok ⟨cid, cs, ru, ae, te, ds, ss, ba, bt⟩)
    ∧ (∀ cfg, createProvider get paths ae te ds ss ba bt = Except.ok cfg →
        ∀ ctx client k, (getTokens cfg ctx client).1 ≠
          Except.error (ProviderFailure.configurationError k)) := by
  refine ⟨?_, ?_, ?_⟩
  · intro h
    unfold createProvider
    rcases h1 : get paths.clientId with _ | cid
    · exact ⟨paths.clientId, rfl⟩
    · rcases h2 : get paths.clientSecret with _ | cs
      · exact ⟨paths.clientSecret, rfl⟩
      · rcases h3 : get paths.redirectUri with _ | ru
        · exact ⟨paths.redirectUri, rfl⟩
        · exfalso
          rcases h with h | h | h
          · rw [h1] at h; exact Option.noConfusion h
          · rw [h2] at h; exact Option.noConfusion h
          · rw [h3] at h; exact Option.noConfusion h
  · intro cid cs ru h1 h2 h3
    unfold createProvider
    rw [h1, h2, h3]
  · intro cfg _ ctx client k
    exact getTokens_no_configuration_error cfg ctx client k

/-- C6 witness: with a configuration table holding only `clientId` and
`clientSecret`, construction fails on the missing `redirectUri`; with
all three present it succeeds and `getTokens` of the constructed
provider never reports a configuration error on a sample context. -/
theorem createProvider_config_check_witness :
    (∃ k, createProvider
        (fun p => List.lookup p [("p.cid", "cid"), ("p.cs", "cs")])
        ⟨"p.cid", "p.cs", "p.ru"⟩ "ae" "te" [] " " [] [] =
      Except.error (ProviderFailure.configurationError k))
    ∧ createProvider
        (fun p => List.lookup p [("p.cid", "cid"), ("p.cs", "cs"), ("p.ru", "ru")])
        ⟨"p.cid", "p.cs", "p.ru"⟩ "ae" "te" [] " " [] [] =
      Except.ok ⟨"cid", "cs", "ru", "ae", "te", [], " ", [], []⟩ := by
  constructor
  · exact (createProvider_config_check
      (fun p => List.lookup p [("p.cid", "cid"), ("p.cs", "cs")])
      ⟨"p.cid", "p.cs", "p.ru"⟩ "ae" "te" [] " " [] []).1 (Or.inr (Or.inr rfl))
  · exact (createProvider_config_check
      (fun p => List.lookup p [("p.cid", "cid"), ("p.cs", "cs"), ("p.ru", "ru")])
      ⟨"p.cid", "p.cs", "p.ru"⟩ "ae" "te" [] " " [] []).2.1 "cid" "cs" "ru" rfl rfl rfl

theorem bitChar_injOn {a b : Nat} (ha : a < 2) (hb : b < 2)
    (h : bitChar a = bitChar b) : a = b := by
  interval_cases a <;> interval_cases b <;> revert h <;> decide

theorem map_bitChar_injOn : ∀ l1 l2 : List Nat, (∀ d ∈ l1, d < 2) →
    (∀ d ∈ l2, d < 2) → l1.map bitChar = l2.map bitChar → l1 = l2 := by
  intro l1
  induction l1 with
  | nil => intro l2 _ _ h; cases l2 <;> simp_all
  | cons a l1 ih =>
    intro l2 h1 h2 h
    cases l2 with
    | nil => simp_all
    | cons b l2 =>
      simp only [List.map_cons, List.cons.injEq] at h
      have ha : a < 2 := h1 a (List.mem_cons_self a l1)
      have hb : b < 2 := h2 b (List.mem_cons_self b l2)
      have hhead := bitChar_injOn ha hb h.1
      have htail := ih l2 (fun d hd => h1 d (List.mem_cons_of_mem a hd))
        (fun d hd => h2 d (List.mem_cons_of_mem b hd)) h.2
      rw [hhead, htail]

/-- Distinct entropy draws yield distinct state tokens. -/
theorem getRandomState_injective : Function.Injective getRandomState := by
  intro e1 e2 h
  have hd : Char.ofNat 84 :: (Nat.digits 2 e1).map bitChar =
      Char.ofNat 84 :: (Nat.digits 2 e2).map bitChar := congrArg String.data h
  have hm := (List.cons.injEq _ _ _ _ ▸ hd).2
  have he : Nat.digits 2 e1 = Nat.digits 2 e2 :=
    map_bitChar_injOn _ _
      (fun d hd => Nat.digits_lt_base (by norm_num) hd)
      (fun d hd => Nat.digits_lt_base (by norm_num) hd) hm
  exact Nat.digits.injective 2 he

/-- State tokens are non-empty. -/
theorem getRandomState_ne_empty (e : Nat) : getRandomState e ≠ "" := by
  intro h
  have := congrArg String.data h
  simp [getRandomState] at this

/-- C2: the `state` query parameter of the redirect URL is exactly the
value of the `oauth2-state` cookie attached to the same response and is
a non-empty string; two calls with distinct fresh draws of randomness —
collision being cryptographically negligible — embed two different state
values. -/
theorem redirect_state_invariant (cfg : ProviderConfig)
    (opts1 opts2 : RedirectOptions) (e1 e2 : Nat) (hne : e1 ≠ e2) :
    (redirectParams cfg opts1 (getRandomState e1)).lookup "state" =
        (redirect cfg opts1 (getRandomState e1)).cookies.lookup STATE_COOKIE_NAME
    ∧ (redirectParams cfg opts1 (getRandomState e1)).lookup "state" =
        some (getRandomState e1)
    ∧ getRandomState e1 ≠ ""
    ∧ (redirectParams cfg opts1 (getRandomState e1)).lookup "state" ≠
        (redirectParams cfg opts2 (getRandomState e2)).lookup "state" := by
  refine ⟨rfl, rfl, getRandomState_ne_empty e1, ?_⟩
  show some (getRandomState e1) ≠ some (getRandomState e2)
  intro h
  exact hne (getRandomState_injective (Option.some.inj h))

/-- C2 witness: with entropy draws 0 and 1, the redirect embeds the
state in both URL and cookie, non-empty, and the two calls produce
different state values. -/
theorem redirect_state_invariant_witness :
    (redirectParams
          { clientId := "cid", clientSecret := "cs", redirectUri := "ru",
            authEndpoint := "ae", tokenEndpoint := "te" } {}
          (getRandomState 0)).lookup "state" =
        (redirect
          { clientId := "cid", clientSecret := "cs", redirectUri := "ru",
            authEndpoint := "ae", tokenEndpoint := "te" } {}
          (getRandomState 0)).cookies.lookup STATE_COOKIE_NAME
    ∧ (redirectParams
          { clientId := "cid", clientSecret := "cs", redirectUri := "ru",
            authEndpoint := "ae", tokenEndpoint := "te" } {}
          (getRandomState 0)).lookup "state" = some (getRandomState 0)
    ∧ getRandomState 0 ≠ ""
    ∧ (redirectParams
          { clientId := "cid", clientSecret := "cs", redirectUri := "ru",
            authEndpoint := "ae", tokenEndpoint := "te" } {}
          (getRandomState 0)).lookup "state" ≠
        (redirectParams
          { clientId := "cid", clientSecret := "cs", redirectUri := "ru",
            authEndpoint := "ae", tokenEndpoint := "te" } {}
          (getRandomState 1)).lookup "state" :=
  redirect_state_invariant
    { clientId := "cid", clientSecret := "cs", redirectUri := "ru",
      authEndpoint := "ae", tokenEndpoint := "te" } {} {} 0 1 (by decide)

/-- The parameter list of the authorization URL, written without the
local abbreviations of `redirectParams`. -/
theorem redirectParams_eq (cfg : ProviderConfig) (opts : RedirectOptions)
    (st : String) :
    redirectParams cfg opts st =
      [("response_type", "code"), ("client_id", cfg.clientId),
        ("redirect_uri", cfg.redirectUri), ("state", st)]
      ++ (if (opts.scopes.getD cfg.defaultScopes).isEmpty then []
          else [("scope",
            String.intercalate cfg.scopeSeparator (opts.scopes.getD cfg.defaultScopes))])
      ++ mergeParams cfg.baseAuthEndpointParams opts.params := rfl

/-- C7: the effective scope list is `options.scopes` when provided and
`defaultScopes` otherwise (a full override); when it is empty the URL
carries no `scope` parameter, and when it is non-empty the `scope`
parameter is the list joined in order by `scopeSeparator` — whose
configuration default is a single space.  The hypothesis records that
the extra parameters, being extra, do not themselves bind the reserved
key `scope`. -/
theorem redirect_scope_param (cfg : ProviderConfig) (opts : RedirectOptions)
    (st : String)
    (hscope : (mergeParams cfg.baseAuthEndpointParams opts.params).lookup "scope" = none) :
    (redirectParams cfg opts st).lookup "scope" =
      (if (opts.scopes.getD cfg.defaultScopes).isEmpty then none
        else some (String.intercalate cfg.scopeSeparator (opts.scopes.getD cfg.defaultScopes)))
    ∧ (∀ a b c d e, ProviderConfig.scopeSeparator
        { clientId := a, clientSecret := b, redirectUri := c,
          authEndpoint := d, tokenEndpoint := e } = " ") := by
  refine ⟨?_, fun a b c d e => rfl⟩
  rw [redirectParams_eq]
  by_cases hem : (opts.scopes.getD cfg.defaultScopes).isEmpty = true
  · rw [if_pos hem, if_pos hem]
    exact hscope
  · rw [if_neg hem, if_neg hem]
    rfl

/-- C7 witness: `defaultScopes = [scope1, scope2]`, no per-call scopes,
no extra parameters: the URL's `scope` parameter is
`scope1 scope2` (default single-space separator). -/
theorem redirect_scope_param_witness :
    (redirectParams
        { clientId := "cid", clientSecret := "cs", redirectUri := "ru",
          authEndpoint := "ae", tokenEndpoint := "te",
          defaultScopes := ["scope1", "scope2"] } {} "T").lookup "scope" =
      some "scope1 scope2" := by
  have h := (redirect_scope_param
    { clientId := "cid", clientSecret := "cs", redirectUri := "ru",
      authEndpoint := "ae", tokenEndpoint := "te",
      defaultScopes := ["scope1", "scope2"] } {} "T" rfl).1
  rw [h]
  rfl

/-- C8: under every key that is not one of the reserved OAuth parameter
names, the redirect URL binds the shallow merge of
`baseAuthEndpointParams` with `options.params`: the caller's value on
collision, the base value for every base key the caller leaves alone. -/
theorem redirect_extra_params (cfg : ProviderConfig) (opts : RedirectOptions)
    (st k : String)
    (hk : k ≠ "response_type" ∧ k ≠ "client_id" ∧ k ≠ "redirect_uri" ∧
      k ≠ "state" ∧ k ≠ "scope") :
    (redirectParams cfg opts st).lookup k =
      (opts.params.lookup k).or (cfg.baseAuthEndpointParams.lookup k) := by
  rw [redirectParams_eq, List.lookup_append, List.lookup_append]
  have h4 : ([("response_type", "code"), ("client_id", cfg.clientId),
      ("redirect_uri", cfg.redirectUri), ("state", st)] : Params).lookup k = none := by
    simp only [List.lookup_eq_none_iff]
    intro p hp
    simp only [List.mem_cons, List.not_mem_nil, or_false] at hp
    rcases hp with h | h | h | h <;> (subst h; simp [bne_iff_ne, hk.1, hk.2.1, hk.2.2.1, hk.2.2.2.1])
  have hs : (if (opts.scopes.getD cfg.defaultScopes).isEmpty then ([] : Params)
      else [("scope",
        String.intercalate cfg.scopeSeparator (opts.scopes.getD cfg.defaultScopes))]).lookup k = none := by
    by_cases hem : (opts.scopes.getD cfg.defaultScopes).isEmpty = true
    · rw [if_pos hem]; rfl
    · rw [if_neg hem, List.lookup_cons, beq_false_of_ne hk.2.2.2.2]
      rfl
  rw [h4, hs, lookup_mergeParams]
  rfl

/-- C8 witness: base `foo=bar, foobar=barfoo` with caller `foo=bar2`
yields `foo=bar2` (caller overrides) and `foobar=barfoo` (base kept). -/
theorem redirect_extra_params_witness :
    (redirectParams
        { clientId := "cid", clientSecret := "cs", redirectUri := "ru",
          authEndpoint := "ae", tokenEndpoint := "te",
          baseAuthEndpointParams := [("foo", "bar"), ("foobar", "barfoo")] }
        { params := [("foo", "bar2")] } "T").lookup "foo" = some "bar2"
    ∧ (redirectParams
        { clientId := "cid", clientSecret := "cs", redirectUri := "ru",
          authEndpoint := "ae", tokenEndpoint := "te",
          baseAuthEndpointParams := [("foo", "bar"), ("foobar", "barfoo")] }
        { params := [("foo", "bar2")] } "T").lookup "foobar" = some "barfoo" := by
  constructor
  · have h := redirect_extra_params
      { clientId := "cid", clientSecret := "cs", redirectUri := "ru",
        authEndpoint := "ae", tokenEndpoint := "te",
        baseAuthEndpointParams := [("foo", "bar"), ("foobar", "barfoo")] }
      { params := [("foo", "bar2")] } "T" "foo" (by refine ⟨?_, ?_, ?_, ?_, ?_⟩ <;> decide)
    rw [h]; rfl
  · have h := redirect_extra_params
      { clientId := "cid", clientSecret := "cs", redirectUri := "ru",
        authEndpoint := "ae", tokenEndpoint := "te",
        baseAuthEndpointParams := [("foo", "bar"), ("foobar", "barfoo")] }
      { params := [("foo", "bar2")] } "T" "foobar" (by refine ⟨?_, ?_, ?_, ?_, ?_⟩ <;> decide)
    rw [h]; rfl

/-- C9: the redirect URL is the `authEndpoint` followed by a query
string whose parameters start with `response_type=code`, the
percent-encoded configured `client_id` and the percent-encoded
configured `redirect_uri`; the remaining parameters (`state`, optional
`scope`, extras) follow, every value percent-encoded by
`queryString`. -/
theorem redirect_url_shape (cfg : ProviderConfig) (opts : RedirectOptions)
    (st : String) :
    ∃ rest, (redirect cfg opts st).path =
      cfg.authEndpoint ++ "?response_type=code&client_id=" ++
        percentEncode cfg.clientId ++ "&redirect_uri=" ++
        percentEncode cfg.redirectUri ++ "&" ++ rest := by
  refine ⟨queryString (("state", st) ::
    ((if (opts.scopes.getD cfg.defaultScopes).isEmpty then ([] : Params)
      else [("scope",
        String.intercalate cfg.scopeSeparator (opts.scopes.getD cfg.defaultScopes))])
      ++ mergeParams cfg.baseAuthEndpointParams opts.params)), ?_⟩
  have hq : queryString (redirectParams cfg opts st) =
      "response_type=code&" ++
        ((("client_id=" ++ percentEncode cfg.clientId) ++ "&") ++
          ((("redirect_uri=" ++ percentEncode cfg.redirectUri) ++ "&") ++
            queryString (("state", st) ::
              ((if (opts.scopes.getD cfg.defaultScopes).isEmpty then ([] : Params)
                else [("scope",
                  String.intercalate cfg.scopeSeparator (opts.scopes.getD cfg.defaultScopes))])
                ++ mergeParams cfg.baseAuthEndpointParams opts.params)))) := rfl
  show cfg.authEndpoint ++ "?" ++ queryString (redirectParams cfg opts st) = _
  rw [hq]
  have c1 : ∀ x : String,
      "?" ++ ("response_type=code&" ++ ("client_id=" ++ x)) =
        "?response_type=code&client_id=" ++ x := by
    intro x
    rw [← String.append_assoc, ← String.append_assoc]
    rfl
  have c2 : ∀ x : String,
      "&" ++ ("redirect_uri=" ++ x) = "&redirect_uri=" ++ x := by
    intro x
    rw [← String.append_assoc]
    rfl
  simp only [String.append_assoc]
  rw [c1, c2]

end Foal
